import Mathlib

/-!
Shallow embedding of the SecureRedact-AI privacy-audit core
(src/api/api_services/geminiService.py) and the PDF text extraction helper
(src/api/api_services/pdfUtils.py).

External collaborators (the google.genai provider SDK, the Python json
standard library, and the pypdf reader) are modelled as function parameters:
each embedded operation receives the behaviour of the external call it makes
and is otherwise a faithful translation of the Python source.
-/

namespace SecureRedact

/-- JSON-like Python values: the results of json.loads and the objects the
provider SDK may expose as a pre-parsed response. Objects are association
lists, numbers are rationals. -/
inductive Json where
  | null : Json
  | bool : Bool → Json
  | num : ℚ → Json
  | str : String → Json
  | arr : List Json → Json
  | obj : List (String × Json) → Json

/-- Python truthiness of a JSON-like value: None, False, 0, the empty string,
the empty list and the empty dict are falsy; everything else is truthy. -/
def Json.truthy : Json → Bool
  | .null => false
  | .bool b => b
  | .num q => q != 0
  | .str s => s != ""
  | .arr xs => !xs.isEmpty
  | .obj kvs => !kvs.isEmpty

/-- Python string coalescing, the idiom (x or d) applied to an optional
string: None and the empty string are replaced by the default d. -/
def pythonOrStr : Option String → String → String
  | none, d => d
  | some t, d => if t = "" then d else t

/-- Python exceptions, distinguished by origin: a ValueError raised by code of
this repository, or an exception coming out of an external library call
(network failure, provider-side error, parse error, pypdf failure). -/
inductive PyErr where
  | valueError (msg : String) : PyErr
  | libError (msg : String) : PyErr

/-- Outcome of one call into external library code: it either raises an
exception or returns a value. -/
inductive CallResult (α : Type) where
  | throws (e : PyErr) : CallResult α
  | ok (val : α) : CallResult α

/-- Request sent to client.models.generate_content: model identifier, the
contents string, and the GenerateContentConfig fields used by the source. -/
structure GenaiRequest where
  model : String
  contents : String
  system_instruction : String
  temperature : Option ℚ
  response_mime_type : Option String
  response_schema : Option Json

/-- Response object of client.models.generate_content as the source uses it:
an optional SDK-parsed object (response.parsed) and the optional raw text
(response.text). -/
structure GenaiResponse where
  parsed : Option Json
  text : Option String

/-- The behaviour of the provider SDK during one run: what each
generate_content request returns (or which exception it raises). -/
def ProviderCall : Type := GenaiRequest → CallResult GenaiResponse

/-- The behaviour of Python json.loads: none models a raised parse error. -/
def JsonLoads : Type := String → Option Json

/-- SUMMARY_SYSTEM_INSTRUCTION string constant of geminiService.py. -/
def SUMMARY_SYSTEM_INSTRUCTION : String :=
  "\nYou are a professional assistant. \nYou are receiving text that has been locally sanitized (PII redacted).\nYour job is to provide a concise, professional summary of the content.\n\nInput Context:\n- Text contains [REDACTED_TYPE] placeholders.\n- Focus on the non-sensitive business logic, events, or main topics.\n- The document might be quite long; provide a structured overview.\n"

/-- VALIDATION_SYSTEM_INSTRUCTION string constant of geminiService.py. -/
def VALIDATION_SYSTEM_INSTRUCTION : String :=
  "\nYou are a Senior Data Privacy Auditor. \nYour task is to compare a REDACTED version of a document with its ORIGINAL version to identify any missed PII (Personally Identifiable Information).\n\nLEAK CRITERIA:\n- Any real names of people, specific addresses, phone numbers, or clear unique identifiers (like SSNs or specific SAP Vendor IDs) that were NOT replaced by a [REDACTED_...] tag.\n- Partial leaks (e.g., \"Mr. [REDACTED_NAME] lives at 123 Main St\" where the address was missed).\n\nReturn a JSON object:\n\x7b\n  \"score\": number (0-100, where 100 means zero leaks),\n  \"leaks\": [\n    \x7b \"item\": \"string\", \"type\": \"string\", \"context\": \"string\", \"severity\": \"Critical\" | \"Warning\" \x7d\n  ],\n  \"summary\": \"string describing the audit result\",\n  \"accuracy_metrics\": \x7b \"precision\": number, \"recall\": number \x7d\n\x7d\n"

/-- The response_schema dict literal of perform_privacy_validation, as a JSON
value. -/
def response_schema : Json :=
  .obj [
    ("type", .str "OBJECT"),
    ("properties", .obj [
      ("score", .obj [("type", .str "NUMBER")]),
      ("summary", .obj [("type", .str "STRING")]),
      ("leaks", .obj [
        ("type", .str "ARRAY"),
        ("items", .obj [
          ("type", .str "OBJECT"),
          ("properties", .obj [
            ("item", .obj [("type", .str "STRING")]),
            ("type", .obj [("type", .str "STRING")]),
            ("context", .obj [("type", .str "STRING")]),
            ("severity", .obj [("type", .str "STRING")])]),
          ("required", .arr [.str "item", .str "type", .str "context", .str "severity"])])]),
      ("accuracy_metrics", .obj [
        ("type", .str "OBJECT"),
        ("properties", .obj [
          ("precision", .obj [("type", .str "NUMBER")]),
          ("recall", .obj [("type", .str "NUMBER")])]),
        ("required", .arr [.str "precision", .str "recall"])])]),
    ("required", .arr [.str "score", .str "summary", .str "leaks", .str "accuracy_metrics"])]

/-- The generate_content request issued by generate_summary: model
gemini-2.0-flash, the sanitized text as contents, the summary system
instruction and temperature 0.3. -/
def summaryRequest (sanitized_text : String) : GenaiRequest :=
  { model := "gemini-2.0-flash",
    contents := sanitized_text,
    system_instruction := SUMMARY_SYSTEM_INSTRUCTION,
    temperature := some (3 / 10 : ℚ),
    response_mime_type := none,
    response_schema := none }

/-- generate_summary of geminiService.py: one provider call; on success the
raw text (or the placeholder when the body is empty or absent); any provider
exception is logged and re-raised, modelled as Except.error of the same
exception. -/
def generate_summary (call : ProviderCall) (sanitized_text : String) :
    Except PyErr String :=
  match call (summaryRequest sanitized_text) with
  | .throws e => .error e
  | .ok resp => .ok (pythonOrStr resp.text "No summary generated.")

/-- The fixed fallback ValidationResult of perform_privacy_validation. -/
def fallbackResult : Json :=
  .obj [
    ("score", .num 100),
    ("leaks", .arr []),
    ("summary", .str "Audit service encountered an error. Manual review suggested."),
    ("accuracy_metrics", .obj [("precision", .num 1), ("recall", .num 1)])]

/-- The audit prompt f-string of perform_privacy_validation, applied to the
already-truncated samples. -/
def auditPrompt (original_sample sanitized_sample : String) : String :=
  "\n        ORIGINAL TEXT SAMPLE:\n        " ++ original_sample ++
  "\n\n        SANITIZED TEXT SAMPLE:\n        " ++ sanitized_sample ++
  "\n        \n        Audit the SANITIZED sample against the ORIGINAL sample.\n        "

/-- The generate_content request issued by perform_privacy_validation: both
inputs truncated to their first 20000 characters, embedded in the audit
prompt, with the validation system instruction, JSON mime type and the
response schema. -/
def auditRequest (original_text sanitized_text : String) : GenaiRequest :=
  { model := "gemini-2.0-pro-exp-02-05",
    contents := auditPrompt (original_text.take 20000) (sanitized_text.take 20000),
    system_instruction := VALIDATION_SYSTEM_INSTRUCTION,
    temperature := none,
    response_mime_type := some "application/json",
    response_schema := some response_schema }

/-- The json.loads branch of perform_privacy_validation: parse
(response.text or the two-character empty-object string); a raised parse
error is caught by the surrounding try/except and yields the fallback. -/
def parseTextPath (jsonLoads : JsonLoads) (text : Option String) : Json :=
  match jsonLoads (pythonOrStr text "\x7b\x7d") with
  | some j => j
  | none => fallbackResult

/-- Interpretation of the provider outcome in perform_privacy_validation:
a raised exception yields the fallback; a truthy response.parsed is returned
directly; otherwise the raw text is parsed as JSON. -/
def auditResponseInterp (jsonLoads : JsonLoads) :
    CallResult GenaiResponse → Json
  | .throws _ => fallbackResult
  | .ok resp =>
    match resp.parsed with
    | some p => if p.truthy then p else parseTextPath jsonLoads resp.text
    | none => parseTextPath jsonLoads resp.text

/-- perform_privacy_validation of geminiService.py: truncate both inputs,
build the audit prompt, call the provider, and interpret the response; the
try/except around the whole body means every exception is absorbed into the
fixed fallback and nothing is raised to the caller (the return type is Json,
not Except). -/
def perform_privacy_validation (call : ProviderCall) (jsonLoads : JsonLoads)
    (original_text sanitized_text : String) : Json :=
  auditResponseInterp jsonLoads (call (auditRequest original_text sanitized_text))

/-- Lookup of a key in a JSON object association list. -/
def lookupKey : List (String × Json) → String → Option Json
  | [], _ => none
  | kv :: rest, key => if kv.1 = key then some kv.2 else lookupKey rest key

/-- The key is present and its value satisfies the given check. -/
def keyIs (kvs : List (String × Json)) (key : String) (p : Json → Bool) : Bool :=
  match lookupKey kvs key with
  | some v => p v
  | none => false

/-- The value is a JSON number. -/
def Json.isNum : Json → Bool
  | .num _ => true
  | _ => false

/-- The value is a JSON string. -/
def Json.isStr : Json → Bool
  | .str _ => true
  | _ => false

/-- The value is an object holding the given key. -/
def Json.hasKey : Json → String → Bool
  | .obj kvs, key => (lookupKey kvs key).isSome
  | _, _ => false

/-- Conformance of one leaks element to the item schema declared in
response_schema: an object with string fields item, type, context and
severity, all required. -/
def leakItemOk : Json → Bool
  | .obj kvs =>
    keyIs kvs "item" Json.isStr &&
    keyIs kvs "type" Json.isStr &&
    keyIs kvs "context" Json.isStr &&
    keyIs kvs "severity" Json.isStr
  | _ => false

/-- Conformance to the top-level response_schema declared by
perform_privacy_validation: required number score, string summary, array
leaks of conforming items, and accuracy_metrics with required number fields
precision and recall. -/
def validationResultOk : Json → Bool
  | .obj kvs =>
    keyIs kvs "score" Json.isNum &&
    keyIs kvs "summary" Json.isStr &&
    keyIs kvs "leaks" (fun j =>
      match j with
      | .arr xs => xs.all leakItemOk
      | _ => false) &&
    keyIs kvs "accuracy_metrics" (fun j =>
      match j with
      | .obj m => keyIs m "precision" Json.isNum && keyIs m "recall" Json.isNum
      | _ => false)
  | _ => false

/-- The leaks array of a ValidationResult-shaped value (empty when absent or
not an array). -/
def leaksOf : Json → List Json
  | .obj kvs =>
    match lookupKey kvs "leaks" with
    | some (.arr xs) => xs
    | _ => []
  | _ => []

/-- An exception occurs during the audit: either the generate_content call
raises, or the call succeeds without a truthy pre-parsed object and
json.loads raises on the (possibly defaulted) response text. -/
def auditExceptionOccurs (call : ProviderCall) (jsonLoads : JsonLoads)
    (original_text sanitized_text : String) : Prop :=
  (∃ e, call (auditRequest original_text sanitized_text) = .throws e) ∨
  (∃ resp, call (auditRequest original_text sanitized_text) = .ok resp ∧
    (∀ p, resp.parsed = some p → p.truthy = false) ∧
    jsonLoads (pythonOrStr resp.text "\x7b\x7d") = none)

/-- Outcome of the pypdf interaction on one byte input: either some step of
reading raises, or it yields the per-page extract_text results in page order
(none models a page whose extract_text returns None). -/
inductive PdfReadOutcome where
  | throws (e : PyErr) : PdfReadOutcome
  | ok (pages : List (Option String)) : PdfReadOutcome

/-- The ValueError message raised by extract_text_from_pdf on failure. -/
def pdfExtractErrorMsg : String :=
  "Failed to extract text from PDF file. Please try a text or JSON file if this persists."

/-- extract_text_from_pdf of pdfUtils.py: read the pages, emit one segment
per page consisting of a 1-based page header and the page text (None
defaulted to the empty string), and join the segments; any pypdf exception
is caught and replaced by a ValueError with a fixed remediation message. -/
def extract_text_from_pdf (readPdf : List Nat → PdfReadOutcome)
    (file_bytes : List Nat) : Except PyErr String :=
  match readPdf file_bytes with
  | .ok pages =>
    .ok (String.join (pages.enum.map (fun pr =>
      "--- Page " ++ toString (pr.1 + 1) ++ " ---\n" ++ pythonOrStr pr.2 "" ++ "\n\n")))
  | .throws _ => .error (.valueError pdfExtractErrorMsg)

/-- Specification-level page concatenation: one segment per page in order,
the segment of the page at 1-based position n carrying the header for n. -/
def pagesTextFrom : Nat → List (Option String) → String
  | _, [] => ""
  | n, p :: ps =>
    "--- Page " ++ toString n ++ " ---\n" ++ pythonOrStr p "" ++ "\n\n" ++
    pagesTextFrom (n + 1) ps

/-- Truncation never keeps more than n characters. -/
theorem take_length_le (s : String) (n : Nat) : (s.take n).length ≤ n := by
  rw [← String.length_data, String.data_take]
  exact List.length_take_le n s.data

/-- Truncation is positional from the start: the kept part followed by the
dropped part is the whole string. -/
theorem take_append_drop (s : String) (n : Nat) : s.take n ++ s.drop n = s := by
  apply String.ext
  simp

/-- Joining a list of strings peels off the head. -/
theorem join_cons (a : String) (l : List String) :
    String.join (a :: l) = a ++ String.join l := by
  apply String.ext
  simp

/-- A successful keyIs check yields the looked-up value and its property. -/
theorem keyIs_lookup (kvs : List (String × Json)) (key : String) (p : Json → Bool)
    (h : keyIs kvs key p = true) :
    ∃ v, lookupKey kvs key = some v ∧ p v = true := by
  unfold keyIs at h
  cases hl : lookupKey kvs key with
  | none => rw [hl] at h; exact Bool.noConfusion h
  | some v => rw [hl] at h; exact ⟨v, rfl, h⟩

/-- A successful lookup needs a nonempty association list. -/
theorem lookupKey_ne_nil (kvs : List (String × Json)) (key : String) (v : Json)
    (h : lookupKey kvs key = some v) : kvs ≠ [] := by
  intro hnil
  subst hnil
  exact Option.noConfusion h

/-- A successful keyIs check means the object has the key. -/
theorem keyIs_hasKey (kvs : List (String × Json)) (key : String) (p : Json → Bool)
    (h : keyIs kvs key p = true) : Json.hasKey (.obj kvs) key = true := by
  obtain ⟨v, hv, _⟩ := keyIs_lookup kvs key p h
  simp [Json.hasKey, hv]

/-- A schema-conforming leaks element has all four required keys. -/
theorem leakItemOk_hasKeys (l : Json) (h : leakItemOk l = true) :
    l.hasKey "item" = true ∧ l.hasKey "type" = true ∧
    l.hasKey "context" = true ∧ l.hasKey "severity" = true := by
  cases l
  case obj m =>
    simp only [leakItemOk, Bool.and_eq_true, and_assoc] at h
    obtain ⟨h1, h2, h3, h4⟩ := h
    exact ⟨keyIs_hasKey _ _ _ h1, keyIs_hasKey _ _ _ h2,
      keyIs_hasKey _ _ _ h3, keyIs_hasKey _ _ _ h4⟩
  all_goals exact Bool.noConfusion h

/-- A schema-conforming ValidationResult is a Python-truthy value. -/
theorem validationResultOk_truthy (r : Json) (h : validationResultOk r = true) :
    r.truthy = true := by
  cases r
  case obj kvs =>
    simp only [validationResultOk, Bool.and_eq_true, and_assoc] at h
    obtain ⟨h1, _, _, _⟩ := h
    obtain ⟨v, hv, _⟩ := keyIs_lookup _ _ _ h1
    cases kvs with
    | nil => exact absurd hv (by simp [lookupKey])
    | cons kv rest => rfl
  all_goals exact Bool.noConfusion h

/-- C1: for every pair of input strings, if any exception occurs during the
audit (the provider call raises, or no truthy pre-parsed object is available
and json.loads raises), perform_privacy_validation does not raise (its
return type is Json, not Except) and returns exactly the fixed fallback
ValidationResult with score 100, empty leaks, the manual-review summary and
accuracy metrics precision 1.0 and recall 1.0. -/
theorem audit_fallback_on_exception (call : ProviderCall) (jsonLoads : JsonLoads)
    (original_text sanitized_text : String)
    (h : auditExceptionOccurs call jsonLoads original_text sanitized_text) :
    perform_privacy_validation call jsonLoads original_text sanitized_text =
      fallbackResult := by
  unfold perform_privacy_validation
  rcases h with ⟨e, he⟩ | ⟨resp, hresp, hpar, hload⟩
  · rw [he]
    rfl
  · rw [hresp]
    cases hp : resp.parsed with
    | none => simp [auditResponseInterp, hp, parseTextPath, hload]
    | some p =>
      have hf : p.truthy = false := hpar p hp
      simp [auditResponseInterp, hp, hf, parseTextPath, hload]

/-- Witness for C1 at a provider that raises a network failure. -/
theorem audit_fallback_on_exception_witness :
    perform_privacy_validation (fun _ => .throws (.libError "network failure"))
      (fun _ => none) "John Smith" "[REDACTED_NAME]" = fallbackResult :=
  audit_fallback_on_exception _ _ _ _ (Or.inl ⟨.libError "network failure", rfl⟩)

/-- C2: for every pair of input strings, if the provider call succeeds and
the SDK exposes an already-schema-parsed object, perform_privacy_validation
returns that object directly, with all four top-level fields present and
every element of leaks fully populated. -/
theorem audit_returns_parsed_object (call : ProviderCall) (jsonLoads : JsonLoads)
    (original_text sanitized_text : String) (r : Json) (txt : Option String)
    (hcall : call (auditRequest original_text sanitized_text) = .ok ⟨some r, txt⟩)
    (hok : validationResultOk r = true) :
    perform_privacy_validation call jsonLoads original_text sanitized_text = r ∧
    r.hasKey "score" = true ∧ r.hasKey "leaks" = true ∧
    r.hasKey "summary" = true ∧ r.hasKey "accuracy_metrics" = true ∧
    ∀ l ∈ leaksOf r, l.hasKey "item" = true ∧ l.hasKey "type" = true ∧
      l.hasKey "context" = true ∧ l.hasKey "severity" = true := by
  have htr : r.truthy = true := validationResultOk_truthy r hok
  cases r
  case obj kvs =>
    simp only [validationResultOk, Bool.and_eq_true, and_assoc] at hok
    obtain ⟨h1, h2, h3, h4⟩ := hok
    refine ⟨?_, keyIs_hasKey _ _ _ h1, keyIs_hasKey _ _ _ h3,
      keyIs_hasKey _ _ _ h2, keyIs_hasKey _ _ _ h4, ?_⟩
    · unfold perform_privacy_validation
      rw [hcall]
      simp [auditResponseInterp, htr]
    · intro l hl
      obtain ⟨v, hv, hpv⟩ := keyIs_lookup _ _ _ h3
      cases v
      case arr xs =>
        have hlx : l ∈ xs := by simpa [leaksOf, hv] using hl
        have hli : leakItemOk l = true := by
          have hall : xs.all leakItemOk = true := hpv
          exact List.all_eq_true.mp hall l hlx
        exact leakItemOk_hasKeys l hli
      all_goals exact Bool.noConfusion hpv
  all_goals exact Bool.noConfusion hok

/-- A concrete schema-conforming audit result, used to instantiate C2. -/
def sampleResult : Json :=
  .obj [
    ("score", .num 60),
    ("leaks", .arr [.obj [
      ("item", .str "123 Main St"),
      ("type", .str "address"),
      ("context", .str "lives at 123 Main St"),
      ("severity", .str "Critical")]]),
    ("summary", .str "One critical address leak found."),
    ("accuracy_metrics", .obj [("precision", .num (9 / 10)), ("recall", .num (8 / 10))])]

/-- Witness for C2 at a provider exposing a concrete parsed object. -/
theorem audit_returns_parsed_object_witness :
    perform_privacy_validation (fun _ => .ok ⟨some sampleResult, none⟩)
      (fun _ => none) "John Smith lives at 123 Main St"
      "[REDACTED_NAME] lives at 123 Main St" = sampleResult ∧
    sampleResult.hasKey "score" = true ∧ sampleResult.hasKey "leaks" = true ∧
    sampleResult.hasKey "summary" = true ∧
    sampleResult.hasKey "accuracy_metrics" = true ∧
    ∀ l ∈ leaksOf sampleResult, l.hasKey "item" = true ∧ l.hasKey "type" = true ∧
      l.hasKey "context" = true ∧ l.hasKey "severity" = true :=
  audit_returns_parsed_object _ _ _ _ sampleResult none rfl rfl

/-- C3: for every pair of input strings, the provider is called on a prompt
that embeds exactly the first 20000 characters of each input (a positional
prefix of length at most 20000) under the ORIGINAL TEXT SAMPLE and SANITIZED
TEXT SAMPLE labels. -/
theorem audit_prompt_truncation (call : ProviderCall) (jsonLoads : JsonLoads)
    (original_text sanitized_text : String) :
    perform_privacy_validation call jsonLoads original_text sanitized_text =
      auditResponseInterp jsonLoads (call (auditRequest original_text sanitized_text)) ∧
    (auditRequest original_text sanitized_text).contents =
      "\n        ORIGINAL TEXT SAMPLE:\n        " ++ original_text.take 20000 ++
      "\n\n        SANITIZED TEXT SAMPLE:\n        " ++ sanitized_text.take 20000 ++
      "\n        \n        Audit the SANITIZED sample against the ORIGINAL sample.\n        " ∧
    (original_text.take 20000).length ≤ 20000 ∧
    (sanitized_text.take 20000).length ≤ 20000 ∧
    original_text.take 20000 ++ original_text.drop 20000 = original_text ∧
    sanitized_text.take 20000 ++ sanitized_text.drop 20000 = sanitized_text :=
  ⟨rfl, rfl, take_length_le _ _, take_length_le _ _,
    take_append_drop _ _, take_append_drop _ _⟩

/-- C4: for every pair of input strings, if the provider call succeeds with
no pre-parsed object and an empty raw text, perform_privacy_validation
parses the two-character empty-object string and returns the empty object,
which is not the fallback and does not conform to the declared schema. -/
theorem audit_empty_text_degraded_parse (call : ProviderCall) (jsonLoads : JsonLoads)
    (original_text sanitized_text : String)
    (hcall : call (auditRequest original_text sanitized_text) = .ok ⟨none, some ""⟩)
    (hloads : jsonLoads "\x7b\x7d" = some (Json.obj [])) :
    perform_privacy_validation call jsonLoads original_text sanitized_text =
      Json.obj [] ∧
    Json.obj [] ≠ fallbackResult ∧
    validationResultOk (Json.obj []) = false := by
  refine ⟨?_, ?_, rfl⟩
  · unfold perform_privacy_validation
    rw [hcall]
    simp [auditResponseInterp, parseTextPath, pythonOrStr, hloads]
  · intro h
    rw [fallbackResult] at h
    injection h with h'
    exact List.noConfusion h'

/-- Witness for C4 at a provider returning an empty body. -/
theorem audit_empty_text_degraded_parse_witness :
    perform_privacy_validation (fun _ => .ok ⟨none, some ""⟩)
      (fun t => if t = "\x7b\x7d" then some (Json.obj []) else none)
      "orig" "clean" = Json.obj [] ∧
    Json.obj [] ≠ fallbackResult ∧
    validationResultOk (Json.obj []) = false :=
  audit_empty_text_degraded_parse _ _ _ _ rfl rfl

/-- C5: for every input string, when the provider call succeeds,
generate_summary returns the placeholder exactly when the response body is
absent or empty, and otherwise returns the raw provider text unchanged. -/
theorem summary_empty_body_placeholder (call : ProviderCall)
    (sanitized_text : String) (resp : GenaiResponse)
    (hcall : call (summaryRequest sanitized_text) = .ok resp) :
    ((resp.text = none ∨ resp.text = some "") →
      generate_summary call sanitized_text = .ok "No summary generated.") ∧
    (∀ t, resp.text = some t → t ≠ "" →
      generate_summary call sanitized_text = .ok t) := by
  constructor
  · rintro (h | h) <;> simp [generate_summary, hcall, pythonOrStr, h]
  · intro t ht hne
    simp [generate_summary, hcall, pythonOrStr, ht, hne]

/-- Witness for C5 at an empty body and at a nonempty body. -/
theorem summary_empty_body_placeholder_witness :
    generate_summary (fun _ => .ok ⟨none, none⟩) "text" =
      .ok "No summary generated." ∧
    generate_summary (fun _ => .ok ⟨none, some "report"⟩) "text" = .ok "report" :=
  ⟨(summary_empty_body_placeholder _ "text" ⟨none, none⟩ rfl).1 (Or.inl rfl),
   (summary_empty_body_placeholder _ "text" ⟨none, some "report"⟩ rfl).2
     "report" rfl (by decide)⟩

/-- C6: for every input string, if the provider call raises, generate_summary
returns that same exception to the caller and substitutes no fallback. -/
theorem summary_propagates_provider_error (call : ProviderCall)
    (sanitized_text : String) (e : PyErr)
    (hcall : call (summaryRequest sanitized_text) = .throws e) :
    generate_summary call sanitized_text = .error e := by
  simp [generate_summary, hcall]

/-- Witness for C6 at a provider raising a timeout. -/
theorem summary_propagates_provider_error_witness :
    generate_summary (fun _ => .throws (.libError "timeout")) "text" =
      .error (.libError "timeout") :=
  summary_propagates_provider_error _ _ _ rfl

/-- C7: perform_privacy_validation keeps no state across calls: its result
depends only on its arguments and on the provider response to the audit
request, so two calls with identical inputs and agreeing providers yield
identical results. -/
theorem audit_no_hidden_state (call₁ call₂ : ProviderCall) (jsonLoads : JsonLoads)
    (original_text sanitized_text : String)
    (h : call₁ (auditRequest original_text sanitized_text) =
      call₂ (auditRequest original_text sanitized_text)) :
    perform_privacy_validation call₁ jsonLoads original_text sanitized_text =
    perform_privacy_validation call₂ jsonLoads original_text sanitized_text := by
  unfold perform_privacy_validation
  rw [h]

/-- Witness for C7: two identical calls against one deterministic provider. -/
theorem audit_no_hidden_state_witness :
    perform_privacy_validation (fun _ => .throws (.libError "down"))
      (fun _ => none) "a" "b" =
    perform_privacy_validation (fun _ => .throws (.libError "down"))
      (fun _ => none) "a" "b" :=
  audit_no_hidden_state _ _ _ _ _ rfl

/-- Joined page segments with indices starting at n equal the recursive
page concatenation starting at page number n + 1. -/
theorem join_segments_enumFrom (n : Nat) (ps : List (Option String)) :
    String.join ((List.enumFrom n ps).map (fun pr =>
      "--- Page " ++ toString (pr.1 + 1) ++ " ---\n" ++ pythonOrStr pr.2 "" ++ "\n\n")) =
    pagesTextFrom (n + 1) ps := by
  induction ps generalizing n with
  | nil => rfl
  | cons p ps ih =>
    have h1 : List.enumFrom n (p :: ps) = (n, p) :: List.enumFrom (n + 1) ps := rfl
    rw [h1, List.map_cons, join_cons, ih]
    simp only [pagesTextFrom, String.append_assoc]

/-- C8: for every byte input on which the reader succeeds,
extract_text_from_pdf returns the concatenation of one segment per page in
page order, each segment prefixed with the header for its 1-based page
number. -/
theorem pdf_extract_page_headers (readPdf : List Nat → PdfReadOutcome)
    (file_bytes : List Nat) (pages : List (Option String))
    (h : readPdf file_bytes = .ok pages) :
    extract_text_from_pdf readPdf file_bytes = .ok (pagesTextFrom 1 pages) := by
  simp only [extract_text_from_pdf, h]
  exact congrArg Except.ok (join_segments_enumFrom 0 pages)

/-- Witness for C8 at a two-page document. -/
theorem pdf_extract_page_headers_witness :
    extract_text_from_pdf (fun _ => .ok [some "hello", none]) [] =
      .ok "--- Page 1 ---\nhello\n\n--- Page 2 ---\n\n\n" := by
  rw [pdf_extract_page_headers (fun _ => .ok [some "hello", none]) []
    [some "hello", none] rfl]
  rfl

/-- C9: for every byte input on which reading fails, extract_text_from_pdf
raises a domain ValueError whose message contains the remediation hint,
independent of the underlying library exception. -/
theorem pdf_extract_domain_error (readPdf : List Nat → PdfReadOutcome)
    (file_bytes : List Nat) (e : PyErr)
    (h : readPdf file_bytes = .throws e) :
    extract_text_from_pdf readPdf file_bytes =
      .error (.valueError pdfExtractErrorMsg) ∧
    pdfExtractErrorMsg =
      "Failed to extract text from PDF file. Please " ++ "try a text or JSON file" ++
      " if this persists." :=
  ⟨by simp [extract_text_from_pdf, h], rfl⟩

/-- Witness for C9 at a reader raising a pypdf failure. -/
theorem pdf_extract_domain_error_witness :
    extract_text_from_pdf (fun _ => .throws (.libError "EOF marker not found"))
      [37, 80, 68, 70] = .error (.valueError pdfExtractErrorMsg) ∧
    pdfExtractErrorMsg =
      "Failed to extract text from PDF file. Please " ++ "try a text or JSON file" ++
      " if this persists." :=
  pdf_extract_domain_error _ _ _ rfl

/-- C10: for every input string, whenever generate_summary returns normally,
the returned string is nonempty: it is either the nonempty provider text or
the placeholder, never the empty string. -/
theorem summary_nonempty (call : ProviderCall) (sanitized_text : String)
    (r : String) (h : generate_summary call sanitized_text = .ok r) :
    r ≠ "" := by
  cases hc : call (summaryRequest sanitized_text) with
  | throws e =>
    simp only [generate_summary, hc] at h
    exact Except.noConfusion h
  | ok resp =>
    simp only [generate_summary, hc] at h
    injection h with h'
    subst h'
    cases resp.text with
    | none => decide
    | some t =>
      by_cases ht : t = ""
      · subst ht; decide
      · simp [pythonOrStr, ht]

/-- Witness for C10 at a provider returning a nonempty body. -/
theorem summary_nonempty_witness : ("hello" : String) ≠ "" :=
  summary_nonempty (fun _ => .ok ⟨none, some "hello"⟩) "text" "hello" rfl

end SecureRedact
